import Mathlib

/-!
# Verification of the poznote-cli client (`poznote-cli.py`)

A shallow embedding of the single-file Python CLI client for the Poznote
note-taking service.  The program is glue code: config loading, argument
dispatch, and authenticated JSON/HTTP calls.  We model each Python function
by a Lean function of the same name, making all effects explicit:

* the resolved environment (the `POZNOTE_*` variables after `load_dotenv`)
  is a record of `Option String` fields;
* the outside world is replayed from explicit inputs: the standard-input
  state, the clipboard read result, the current epoch seconds, whether
  `/dev/tty` can be opened, and a script of API responses consumed in
  order by successive HTTP calls (a call beyond the end of the script
  behaves as a network failure);
* a run of a handler is the ordered list of observable events (HTTP
  requests sent, lines printed, blocking confirmation reads) together
  with the exit status (`some n` for `sys.exit(n)`, `none` for a normal
  return, after which the process exits 0).

`copy_to_clipboard` is a best-effort external side effect that no claim
observes; it is not recorded in the event list.  `get_config` is idempotent
(it re-reads the same resolved environment), so the repeated calls in the
source are modelled by passing the once-loaded configuration.
-/

/-- A single apostrophe character, used in messages the program prints. -/
def apos : String := "\x27"

/-- JSON values, as produced by `json` payload construction and
`response.json()` parsing in the source.  Numbers are modelled as integers
(the ids and flags the program touches are integral). -/
inductive JVal where
  | jnull
  | jbool (b : Bool)
  | jnum (n : Int)
  | jstr (s : String)
  | jarr (xs : List JVal)
  | jobj (fields : List (String × JVal))
deriving Repr

mutual

/-- Decidable equality for `JVal` (the nested `List` occurrences defeat
the automatic derivation). -/
def JVal.decEq : (a b : JVal) → Decidable (a = b)
  | .jnull, .jnull => .isTrue rfl
  | .jbool a, .jbool b =>
    if h : a = b then .isTrue (by rw [h]) else .isFalse (fun he => h (JVal.jbool.inj he))
  | .jnum a, .jnum b =>
    if h : a = b then .isTrue (by rw [h]) else .isFalse (fun he => h (JVal.jnum.inj he))
  | .jstr a, .jstr b =>
    if h : a = b then .isTrue (by rw [h]) else .isFalse (fun he => h (JVal.jstr.inj he))
  | .jarr xs, .jarr ys =>
    match JVal.decEqList xs ys with
    | .isTrue h => .isTrue (by rw [h])
    | .isFalse h => .isFalse (fun he => h (JVal.jarr.inj he))
  | .jobj fs, .jobj gs =>
    match JVal.decEqObj fs gs with
    | .isTrue h => .isTrue (by rw [h])
    | .isFalse h => .isFalse (fun he => h (JVal.jobj.inj he))
  | .jnull, .jbool _ | .jnull, .jnum _ | .jnull, .jstr _ | .jnull, .jarr _
  | .jnull, .jobj _ | .jbool _, .jnull | .jbool _, .jnum _ | .jbool _, .jstr _
  | .jbool _, .jarr _ | .jbool _, .jobj _ | .jnum _, .jnull | .jnum _, .jbool _
  | .jnum _, .jstr _ | .jnum _, .jarr _ | .jnum _, .jobj _ | .jstr _, .jnull
  | .jstr _, .jbool _ | .jstr _, .jnum _ | .jstr _, .jarr _ | .jstr _, .jobj _
  | .jarr _, .jnull | .jarr _, .jbool _ | .jarr _, .jnum _ | .jarr _, .jstr _
  | .jarr _, .jobj _ | .jobj _, .jnull | .jobj _, .jbool _ | .jobj _, .jnum _
  | .jobj _, .jstr _ | .jobj _, .jarr _ => .isFalse (fun he => nomatch he)

/-- Decidable equality for lists of `JVal`. -/
def JVal.decEqList : (xs ys : List JVal) → Decidable (xs = ys)
  | [], [] => .isTrue rfl
  | [], _ :: _ => .isFalse (fun he => nomatch he)
  | _ :: _, [] => .isFalse (fun he => nomatch he)
  | x :: xs, y :: ys =>
    match JVal.decEq x y, JVal.decEqList xs ys with
    | .isTrue h1, .isTrue h2 => .isTrue (by rw [h1, h2])
    | .isFalse h1, _ => .isFalse (fun he => h1 (List.cons.inj he).1)
    | _, .isFalse h2 => .isFalse (fun he => h2 (List.cons.inj he).2)

/-- Decidable equality for JSON object field lists. -/
def JVal.decEqObj : (xs ys : List (String × JVal)) → Decidable (xs = ys)
  | [], [] => .isTrue rfl
  | [], _ :: _ => .isFalse (fun he => nomatch he)
  | _ :: _, [] => .isFalse (fun he => nomatch he)
  | (k1, v1) :: xs, (k2, v2) :: ys =>
    if hk : k1 = k2 then
      match JVal.decEq v1 v2, JVal.decEqObj xs ys with
      | .isTrue hv, .isTrue ht => .isTrue (by rw [hk, hv, ht])
      | .isFalse hv, _ =>
        .isFalse (fun he => hv (Prod.mk.inj ((List.cons.inj he).1)).2)
      | _, .isFalse ht => .isFalse (fun he => ht (List.cons.inj he).2)
    else .isFalse (fun he => hk (Prod.mk.inj ((List.cons.inj he).1)).1)

end

instance : DecidableEq JVal := JVal.decEq

/-- Python truthiness of a value (`if x:`): `None`, `False`, `0`, `""`,
`[]`, `{}` are falsy, everything else truthy. -/
def pyTruthyJ : JVal → Bool
  | .jnull => false
  | .jbool b => b
  | .jnum n => n != 0
  | .jstr s => s != ""
  | .jarr xs => !xs.isEmpty
  | .jobj fs => !fs.isEmpty

/-- Python truthiness of an optional string (`if x:` where `x` is `None`
or a `str`): `None` and `""` are falsy. -/
def pyTruthyStr : Option String → Bool
  | none => false
  | some s => s != ""

/-- Python `str(x)` / f-string interpolation for the JSON values the
program interpolates (ids).  The source never interpolates a list or a
dict (ids are numbers or strings); those cases are given placeholder
renderings and are unused by the theorems. -/
def pyStr : JVal → String
  | .jnull => "None"
  | .jbool true => "True"
  | .jbool false => "False"
  | .jnum n => toString n
  | .jstr s => s
  | .jarr _ => "<list>"
  | .jobj _ => "<dict>"

/-- Python `d.get(k, dflt)` on a parsed JSON object.  On a non-object the
source would raise `AttributeError`; the model returns the default, a case
no theorem exercises (responses are fixed to be objects). -/
def jgetD (d : JVal) (k : String) (dflt : JVal) : JVal :=
  match d with
  | .jobj fs => (fs.lookup k).getD dflt
  | _ => dflt

/-- Python `xs[0]` on the JSON value bound to `notes`.  On a non-list the
source would raise; the model returns `null`, a case no theorem exercises
(the `notes` field is fixed to be a list). -/
def pyIndex0 : JVal → JVal
  | .jarr (x :: _) => x
  | _ => .jnull

/-- Python `s.rstrip(c)` for a single character: drop every trailing
occurrence of `c`. -/
def pyRstrip (s : String) (c : Char) : String :=
  String.mk ((s.data.reverse.dropWhile (· == c)).reverse)

/-- Python `s.lower()` for the ASCII values the configuration toggle
takes (full Unicode case mapping is irrelevant here). -/
def pyLower (s : String) : String :=
  String.mk (s.data.map Char.toLower)

/-- Python `s.strip()`: remove leading and trailing whitespace. -/
def pyStrip (s : String) : String :=
  String.mk (((s.data.dropWhile Char.isWhitespace).reverse.dropWhile
    Char.isWhitespace).reverse)

/-- The groups of characters between occurrences of `sep`, empty groups
kept. -/
def pySplitAux (sep : Char) : List Char → List (List Char)
  | [] => [[]]
  | c :: cs =>
    match pySplitAux sep cs with
    | g :: gs => if c == sep then [] :: g :: gs else (c :: g) :: gs
    | [] => [[c]]

/-- Python `s.split(sep)` for a one-character separator: split on every
occurrence, neither trimming the parts nor dropping empty ones
(`"".split(',') == ['']`, `"a,,b".split(',') == ['a', '', 'b']`). -/
def pySplit (s : String) (sep : Char) : List String :=
  (pySplitAux sep s.data).map String.mk

/-! ## Configuration (`get_config`, source lines 74-89) -/

/-- The resolved environment after `load_dotenv(~/.poznote.conf)`:
the six `POZNOTE_*` variables, each possibly absent. -/
structure Env where
  url : Option String
  user : Option String
  password : Option String
  user_id : Option String
  workspace : Option String
  adv_features : Option String
deriving Repr, DecidableEq

/-- The tuple `get_config` returns on success. -/
structure Config where
  base_url : String
  user : String
  password : String
  user_id : String
  workspace : String
  adv_feat : Bool
deriving Repr, DecidableEq

/-- Model of `get_config()`: resolves the six settings with defaults
(`POZNOTE_USER_ID` → "1", `POZNOTE_WORKSPACE` → "Poznote",
`POZNOTE_ADVANCED_FEATURES` → "false"), exits 12 unless url, user and
password are all truthy, and strips trailing slashes from the url. -/
def get_config (env : Env) : Except Nat Config :=
  let user_id := env.user_id.getD "1"
  let workspace := env.workspace.getD "Poznote"
  let adv_feat := pyLower (env.adv_features.getD "false") == "true"
  if !(pyTruthyStr env.url && pyTruthyStr env.user && pyTruthyStr env.password) then
    .error 12
  else
    .ok { base_url := pyRstrip (env.url.getD "") '/'
          user := env.user.getD ""
          password := env.password.getD ""
          user_id := user_id
          workspace := workspace
          adv_feat := adv_feat }

/-! ## HTTP requests and the event trace -/

/-- One outbound HTTP request as `requests.request` receives it:
method, absolute url, headers, basic-auth credentials, optional JSON
body, query parameters. -/
structure HttpRequest where
  method : String
  url : String
  headers : List (String × String)
  auth : String × String
  payload : Option JVal
  params : List (String × String)
deriving Repr, DecidableEq

/-- An observable event of a run, in program order. -/
inductive Event where
  | http (req : HttpRequest)
  | out (line : String)
  /-- A blocking one-line read used by Burn mode's confirmation
  (either from `/dev/tty` or via `input()`). -/
  | confirmRead
deriving Repr, DecidableEq

/-- One scripted reply of the remote API to the next request. -/
inductive ApiResp where
  /-- A 2xx reply with a JSON body. -/
  | ok (body : JVal)
  /-- A 2xx reply with an empty body (`response.content` falsy). -/
  | okEmpty
  /-- Timeout, connection error or non-2xx status
  (`requests.exceptions.RequestException`). -/
  | fail
deriving Repr, DecidableEq

/-- The outcome of a handler: its events and `some code` when it called
`sys.exit(code)` (`none` means it returned; the process then exits 0). -/
structure Run where
  events : List Event
  exitCode : Option Nat
deriving Repr, DecidableEq

/-- The HTTP requests among a list of events, in order. -/
def httpOf (es : List Event) : List HttpRequest :=
  es.filterMap fun e =>
    match e with
    | .http req => some req
    | _ => none

/-- The HTTP requests a run actually sent, in order. -/
def Run.requests (r : Run) : List HttpRequest := httpOf r.events

/-- The process exit status of a run (a handler that returns normally
falls off the end of `__main__`, which exits 0). -/
def Run.finalExit (r : Run) : Nat := r.exitCode.getD 0

/-- String literal rendering inside `json.dumps` output: quoted, with
backslash and double quote escaped. -/
def jstrDump (s : String) : String :=
  "\"" ++ (s.foldl (fun acc c =>
    if c == '\\' then acc ++ "\\\\"
    else if c == '"' then acc ++ "\\\""
    else acc ++ String.singleton c) "") ++ "\""

mutual

/-- A minimal `json.dumps` for the debug echo: object and array literals
with `", "` and `": "` separators.  Only the debug output line depends
on it. -/
def jdumps : JVal → String
  | .jnull => "null"
  | .jbool true => "true"
  | .jbool false => "false"
  | .jnum n => toString n
  | .jstr s => jstrDump s
  | .jarr xs => "[" ++ jdumpsList xs ++ "]"
  | .jobj fs => "\x7b" ++ jdumpsObj fs ++ "\x7d"

/-- Comma-separated rendering of a JSON array's elements. -/
def jdumpsList : List JVal → String
  | [] => ""
  | [x] => jdumps x
  | x :: y :: xs => jdumps x ++ ", " ++ jdumpsList (y :: xs)

/-- Comma-separated rendering of a JSON object's fields. -/
def jdumpsObj : List (String × JVal) → String
  | [] => ""
  | [(k, v)] => jstrDump k ++ ": " ++ jdumps v
  | (k, v) :: f :: fs => jstrDump k ++ ": " ++ jdumps v ++ ", " ++ jdumpsObj (f :: fs)

end

/-- Model of `print_debug_curl` (source lines 92-101): the single string printed
between the `--- DEBUG ---` banner lines, an equivalent `curl` command. -/
def print_debug_curl (method url : String) (headers : List (String × String))
    (auth : String × String) (payload : Option JVal) : String :=
  let auth_str := auth.1 ++ ":" ++ auth.2
  let cmd := ["curl -X " ++ method ++ " " ++ apos ++ url ++ apos,
              "-u " ++ apos ++ auth_str ++ apos]
    ++ headers.map (fun kv => "-H " ++ apos ++ kv.1 ++ ": " ++ kv.2 ++ apos)
    ++ (match payload with
        | some p => if pyTruthyJ p then ["-d " ++ apos ++ jdumps p ++ apos] else []
        | none => [])
  String.intercalate " " cmd

/-- The line printed when the HTTP call raises; the source appends the
exception's own text, which the model leaves abstract. -/
def apiFailMsg : String := "Error: API Request failed: <exception>"

instance {α β : Type} [DecidableEq α] [DecidableEq β] : DecidableEq (Except α β) := fun a b =>
  match a, b with
  | .error x, .error y =>
    if h : x = y then .isTrue (by rw [h]) else .isFalse (fun he => h (Except.error.inj he))
  | .ok x, .ok y =>
    if h : x = y then .isTrue (by rw [h]) else .isFalse (fun he => h (Except.ok.inj he))
  | .error _, .ok _ => .isFalse (fun he => nomatch he)
  | .ok _, .error _ => .isFalse (fun he => nomatch he)

/-- The result of one `poznote_request` call: its events, its value
(`.error 13` models `sys.exit(13)`), and the rest of the response
script. -/
structure RR where
  events : List Event
  res : Except Nat JVal
  rest : List ApiResp
deriving Repr, DecidableEq

/-- The headers `poznote_request` always attaches. -/
def stdHeaders (cfg : Config) : List (String × String) :=
  [("X-User-ID", cfg.user_id), ("Content-Type", "application/json")]

/-- The request `poznote_request` builds from the configuration:
url `base_url ++ endpoint`, the `X-User-ID` and `Content-Type` headers,
and basic auth from the configured credentials. -/
def builtRequest (cfg : Config) (method endpoint : String)
    (payload : Option JVal) (params : List (String × String)) : HttpRequest :=
  { method := method, url := cfg.base_url ++ endpoint
    headers := stdHeaders cfg, auth := (cfg.user, cfg.password)
    payload := payload, params := params }

/-- The sending half of `poznote_request` (source lines 113-119): one
round trip answered by the next scripted response; the parsed JSON on
success (`{"success": true}` for an empty body), exit 13 on any request
failure.  An exhausted script behaves as a network failure. -/
def poznote_request_send (cfg : Config) (method endpoint : String)
    (payload : Option JVal) (params : List (String × String))
    (resps : List ApiResp) : RR :=
  let req := builtRequest cfg method endpoint payload params
  match resps with
  | [] => ⟨[.http req, .out apiFailMsg], .error 13, []⟩
  | .ok body :: rest => ⟨[.http req], .ok body, rest⟩
  | .okEmpty :: rest =>
      ⟨[.http req], .ok (.jobj [("success", .jbool true)]), rest⟩
  | .fail :: rest => ⟨[.http req, .out apiFailMsg], .error 13, rest⟩

/-- Model of `poznote_request` (source lines 104-119): builds the request from the
configuration, prints the debug echo first when the debug flag is set,
then sends exactly the built request. -/
def poznote_request (cfg : Config) (method endpoint : String)
    (payload : Option JVal) (params : List (String × String)) (dbg : Bool)
    (resps : List ApiResp) : RR :=
  let req := builtRequest cfg method endpoint payload params
  let r := poznote_request_send cfg method endpoint payload params resps
  { events := (if dbg then
        [.out (print_debug_curl method req.url req.headers req.auth payload)]
      else []) ++ r.events
    res := r.res, rest := r.rest }

/-! ## Action handlers -/

/-- The state of standard input: an interactive terminal
(`sys.stdin.isatty()`), or piped data whose full read yields `content`. -/
inductive Stdin where
  | tty
  | piped (content : String)
deriving Repr, DecidableEq

/-- Forty hyphens, the separator line the read handlers print. -/
def sepLine : String := String.mk (List.replicate 40 '-')

/-- Model of `list_last_note` (source lines 122-142): GET the workspace's note
collection; on an empty collection print a message and return; otherwise
GET the first entry's detail and print heading, content, separator and
url. -/
def list_last_note (cfg : Config) (dbg : Bool) (resps : List ApiResp) : Run :=
  let r1 := poznote_request cfg "GET" "/api/v1/notes" none
    [("workspace", cfg.workspace)] dbg resps
  match r1.res with
  | .error c => ⟨r1.events, some c⟩
  | .ok data =>
    let notes := jgetD data "notes" (.jarr [])
    if !pyTruthyJ notes then
      ⟨r1.events ++ [.out ("No notes found in workspace: " ++ cfg.workspace)], none⟩
    else
      let last_id := jgetD (pyIndex0 notes) "id" .jnull
      let r2 := poznote_request cfg "GET" ("/api/v1/notes/" ++ pyStr last_id)
        none [] dbg r1.rest
      match r2.res with
      | .error c => ⟨r1.events ++ r2.events, some c⟩
      | .ok detail_data =>
        let note := jgetD detail_data "note" (.jobj [])
        let full_url := cfg.base_url ++ "/index.php?workspace=" ++ cfg.workspace
          ++ "&note=" ++ pyStr last_id
        ⟨r1.events ++ r2.events ++
          [.out ("--- Latest Note in " ++ cfg.workspace ++ " [ID: "
            ++ pyStr last_id ++ "] ---"),
           .out (pyStr (jgetD note "heading" (.jstr "No Title"))),
           .out (pyStr (jgetD note "content" (.jstr ""))),
           .out sepLine,
           .out ("URL: " ++ full_url)], none⟩

/-- Model of `search_notes` (source lines 145-165): like `list_last_note` but the
collection GET carries a `search` query parameter, and only the first
match's detail is fetched and printed. -/
def search_notes (cfg : Config) (query : String) (dbg : Bool)
    (resps : List ApiResp) : Run :=
  let r1 := poznote_request cfg "GET" "/api/v1/notes" none
    [("workspace", cfg.workspace), ("search", query)] dbg resps
  match r1.res with
  | .error c => ⟨r1.events, some c⟩
  | .ok data =>
    let notes := jgetD data "notes" (.jarr [])
    if !pyTruthyJ notes then
      ⟨r1.events ++ [.out ("No notes found matching " ++ apos ++ query ++ apos
        ++ " in workspace: " ++ cfg.workspace)], none⟩
    else
      let first_id := jgetD (pyIndex0 notes) "id" .jnull
      let r2 := poznote_request cfg "GET" ("/api/v1/notes/" ++ pyStr first_id)
        none [] dbg r1.rest
      match r2.res with
      | .error c => ⟨r1.events ++ r2.events, some c⟩
      | .ok detail_data =>
        let note := jgetD detail_data "note" (.jobj [])
        let full_url := cfg.base_url ++ "/index.php?workspace=" ++ cfg.workspace
          ++ "&note=" ++ pyStr first_id
        ⟨r1.events ++ r2.events ++
          [.out ("First match for " ++ apos ++ query ++ apos ++ " in "
            ++ cfg.workspace ++ " [ID: " ++ pyStr first_id ++ "]"),
           .out (pyStr (jgetD note "heading" (.jstr "No Title"))),
           .out (pyStr (jgetD note "content" (.jstr ""))),
           .out sepLine,
           .out ("View in browser: " ++ full_url)], none⟩

/-- Model of `delete_note` (source lines 168-171): DELETE the note by id and, unless
silent, print a success line.  A request failure exits 13 inside
`poznote_request`. -/
def delete_note (cfg : Config) (note_id : String) (silent dbg : Bool)
    (resps : List ApiResp) : Run :=
  let r := poznote_request cfg "DELETE" ("/api/v1/notes/" ++ note_id) none [] dbg resps
  match r.res with
  | .error c => ⟨r.events, some c⟩
  | .ok _ =>
    ⟨r.events ++ (if silent then []
      else [.out ("Success: Note " ++ note_id ++ " deleted.")]), none⟩

/-- Model of `update_note` (source lines 174-184): exit 11 on an interactive stdin;
read and strip the piped input, return silently if it is empty, else PATCH
the note with `{content: input}` and print a success line. -/
def update_note (cfg : Config) (note_id : String) (stdin : Stdin) (dbg : Bool)
    (resps : List ApiResp) : Run :=
  match stdin with
  | .tty => ⟨[.out "Error: No piped input detected for update."], some 11⟩
  | .piped raw =>
    let input_data := pyStrip raw
    if input_data == "" then ⟨[], none⟩
    else
      let payload := JVal.jobj [("content", .jstr input_data)]
      let r := poznote_request cfg "PATCH" ("/api/v1/notes/" ++ note_id)
        (some payload) [] dbg resps
      match r.res with
      | .error c => ⟨r.events, some c⟩
      | .ok _ =>
        ⟨r.events ++ [.out ("Success: Note " ++ note_id ++ " updated via PATCH.")], none⟩

/-- Value of `os.path.basename(__file__)`, used in the hint lines. -/
def script_name : String := "poznote-cli.py"

/-- The JSON payload `post_to_poznote` builds (source lines 200-206):
generated heading `cli-<epoch>`, the content, the workspace, fixed type
`markdown`, and — only when the tags string is truthy — a `tags` field
holding the plain comma-split of the string (`tags.split(',')`). -/
def post_payload (now : Nat) (input_data ws : String) (tags : Option String) : JVal :=
  let base := [("heading", JVal.jstr ("cli-" ++ toString now)),
               ("content", JVal.jstr input_data),
               ("workspace", JVal.jstr ws),
               ("type", JVal.jstr "markdown")]
  .jobj (if pyTruthyStr tags then
           base ++ [("tags", .jarr ((pySplit (tags.getD "") ',').map .jstr))]
         else base)

/-- The tail of `post_to_poznote` after content resolution (source lines
198-231): `sys.exit(0)` on falsy content; otherwise POST the payload,
print the success url, optionally print hint lines, and in Burn mode (and
with a truthy note id) print the warning, block on the confirmation read,
and delete the note.  Both confirmation paths of the source — the
`/dev/tty` read and the `input()` fallback — print the same prompt and
then read one line, so the trace does not distinguish them. -/
def post_with_content (cfg : Config) (tags : Option String)
    (show_delete show_update burn dbg : Bool) (input_data : Option String)
    (now : Nat) (resps : List ApiResp) : Run :=
  if !pyTruthyStr input_data then ⟨[], some 0⟩
  else
    let payload := post_payload now (input_data.getD "") cfg.workspace tags
    let r := poznote_request cfg "POST" "/api/v1/notes" (some payload) [] dbg resps
    match r.res with
    | .error c => ⟨r.events, some c⟩
    | .ok data =>
      let note_id := jgetD (jgetD data "note" (.jobj [])) "id" .jnull
      let full_url := cfg.base_url ++ "/index.php?workspace=" ++ cfg.workspace
        ++ "&note=" ++ pyStr note_id
      let hints :=
        (if show_delete && pyTruthyJ note_id then
          [Event.out ("To delete this note run: " ++ script_name ++ " -D "
            ++ pyStr note_id)] else [])
        ++ (if show_update && pyTruthyJ note_id then
          [Event.out ("To update this note run: [command] | " ++ script_name
            ++ " -U " ++ pyStr note_id)] else [])
      let pre := r.events ++ [.out ("Success: " ++ full_url)] ++ hints
      if burn && pyTruthyJ note_id then
        let rd := delete_note cfg (pyStr note_id) false dbg r.rest
        ⟨pre ++
          [.out ("\n🔥 BURN MODE: Note will be deleted from " ++ cfg.workspace
            ++ " when you proceed."),
           .out "Press [Enter] to delete...",
           .confirmRead] ++ rd.events, rd.exitCode⟩
      else ⟨pre, none⟩

/-- Model of `post_to_poznote` (source lines 187-231): resolve the content — the
clipboard read when the clipboard flag is set (`clip` is the already
stripped result of `get_clipboard_text`, `none` on failure), otherwise the
stripped piped input, exiting 11 on an interactive stdin — then proceed as
in `post_with_content`. -/
def post_to_poznote (cfg : Config) (tags : Option String)
    (from_clipboard show_delete show_update burn dbg : Bool)
    (stdin : Stdin) (clip : Option String) (now : Nat)
    (resps : List ApiResp) : Run :=
  if from_clipboard then
    post_with_content cfg tags show_delete show_update burn dbg clip now resps
  else
    match stdin with
    | .tty => ⟨[.out "Error: No piped input. Use -c to post from clipboard."], some 11⟩
    | .piped raw =>
      post_with_content cfg tags show_delete show_update burn dbg
        (some (pyStrip raw)) now resps

/-! ## CLI front end (`__main__`, source lines 234-284) -/

/-- The parsed argparse namespace.  A value-taking flag is `none` when
absent and `some v` when supplied (argparse stores the given string, which
may be empty). -/
structure Args where
  d : Bool
  burn : Bool
  u : Bool
  tags : Option String
  clipboard : Bool
  debug : Bool
  delete : Option String
  update : Option String
  last : Bool
  search : Option String
deriving Repr, DecidableEq

/-- The `__main__` block: load the configuration (exit 12 with a message
on missing credentials — the source interpolates the expanded config
path), reject truthy gated flags when advanced features are disabled
(exit 12), then dispatch by Python truthiness in the fixed priority
last > search > delete > update > post.  The repeated `get_config()`
calls of the source are idempotent reads of the same resolved
environment, modelled by the single `cfg`. -/
def mainRun (env : Env) (args : Args) (stdin : Stdin) (clip : Option String)
    (now : Nat) (resps : List ApiResp) : Run :=
  match get_config env with
  | .error c => ⟨[.out "Error: Credentials missing in ~/.poznote.conf"], some c⟩
  | .ok cfg =>
    if (args.last || pyTruthyStr args.search || pyTruthyStr args.delete
        || pyTruthyStr args.update) && !cfg.adv_feat then
      ⟨[.out "Error: Advanced features are disabled in ~/.poznote.conf"], some 12⟩
    else if args.last then list_last_note cfg args.debug resps
    else if pyTruthyStr args.search then
      search_notes cfg (args.search.getD "") args.debug resps
    else if pyTruthyStr args.delete then
      delete_note cfg (args.delete.getD "") false args.debug resps
    else if pyTruthyStr args.update then
      update_note cfg (args.update.getD "") stdin args.debug resps
    else
      post_to_poznote cfg args.tags args.clipboard args.d args.u args.burn
        args.debug stdin clip now resps

/-! ## Concrete instances used by witnesses and counterexamples -/

/-- A concrete configuration with advanced features disabled. -/
def cfgEx : Config :=
  { base_url := "http://x", user := "u", password := "p", user_id := "1"
    workspace := "Poznote", adv_feat := false }

/-- A concrete configuration with advanced features enabled. -/
def cfgAdv : Config := { cfgEx with adv_feat := true }

/-- A concrete resolved environment that loads to `cfgEx`. -/
def envEx : Env :=
  { url := some "http://x/", user := some "u", password := some "p"
    user_id := none, workspace := none, adv_features := none }

/-- The argparse namespace with no flag supplied. -/
def argsNone : Args :=
  { d := false, burn := false, u := false, tags := none, clipboard := false
    debug := false, delete := none, update := none, last := false, search := none }


/-- Spec-side definition of the claimed tags transformation, following the
spec's words: comma-split into an ordered sequence, each element trimmed,
empty elements removed.  To be compared against the `tags` field the
program actually sends. -/
def specTagsSplit (t : String) : List String :=
  ((pySplit t ',').map pyStrip).filter (· != "")

/-- Is this event the Burn-mode confirmation read? -/
def isConfirm : Event → Bool
  | .confirmRead => true
  | _ => false

/-- Is this event an outbound DELETE request? -/
def isDeleteHttp : Event → Bool
  | .http r => r.method == "DELETE"
  | _ => false

/-! ## Trace lemmas -/

theorem httpOf_nil : httpOf [] = [] := rfl

theorem httpOf_cons_http (r : HttpRequest) (es : List Event) :
    httpOf (.http r :: es) = r :: httpOf es := rfl

theorem httpOf_cons_out (s : String) (es : List Event) :
    httpOf (.out s :: es) = httpOf es := rfl

theorem httpOf_cons_confirm (es : List Event) :
    httpOf (.confirmRead :: es) = httpOf es := rfl

theorem httpOf_append (a b : List Event) :
    httpOf (a ++ b) = httpOf a ++ httpOf b := by
  simp [httpOf, List.filterMap_append]

theorem poznote_request_res (cfg : Config) (m e : String) (p : Option JVal)
    (ps : List (String × String)) (dbg : Bool) (resps : List ApiResp) :
    (poznote_request cfg m e p ps dbg resps).res
      = (poznote_request_send cfg m e p ps resps).res := rfl

theorem poznote_request_rest (cfg : Config) (m e : String) (p : Option JVal)
    (ps : List (String × String)) (dbg : Bool) (resps : List ApiResp) :
    (poznote_request cfg m e p ps dbg resps).rest
      = (poznote_request_send cfg m e p ps resps).rest := rfl

/-- Whatever the response and the debug flag, one `poznote_request` call
sends exactly the request built from the configuration. -/
theorem poznote_request_httpOf (cfg : Config) (m e : String) (p : Option JVal)
    (ps : List (String × String)) (dbg : Bool) (resps : List ApiResp) :
    httpOf (poznote_request cfg m e p ps dbg resps).events
      = [builtRequest cfg m e p ps] := by
  cases dbg <;>
    (cases resps with
     | nil => simp [poznote_request, poznote_request_send, httpOf]
     | cons r rest =>
       cases r <;> simp [poznote_request, poznote_request_send, httpOf])

/-- The error exit of `poznote_request` is always 13. -/
theorem poznote_request_error13 (cfg : Config) (m e : String) (p : Option JVal)
    (ps : List (String × String)) (resps : List ApiResp) (c : Nat)
    (h : (poznote_request_send cfg m e p ps resps).res = .error c) : c = 13 := by
  cases resps with
  | nil => simp [poznote_request_send] at h; omega
  | cons r rest => cases r <;> simp [poznote_request_send] at h <;> omega


/-- One-step reduction of `poznote_request` on a script whose next
response is a JSON success. -/
theorem poznote_request_ok_eq (cfg : Config) (m e : String) (p : Option JVal)
    (ps : List (String × String)) (dbg : Bool) (body : JVal)
    (rest : List ApiResp) :
    poznote_request cfg m e p ps dbg (.ok body :: rest)
      = ⟨(if dbg then [.out (print_debug_curl m (cfg.base_url ++ e)
            (stdHeaders cfg) (cfg.user, cfg.password) p)] else [])
          ++ [.http (builtRequest cfg m e p ps)], .ok body, rest⟩ := rfl

/-- One-step reduction of `poznote_request` on a script whose next
response is an empty-body success. -/
theorem poznote_request_okEmpty_eq (cfg : Config) (m e : String) (p : Option JVal)
    (ps : List (String × String)) (dbg : Bool) (rest : List ApiResp) :
    poznote_request cfg m e p ps dbg (.okEmpty :: rest)
      = ⟨(if dbg then [.out (print_debug_curl m (cfg.base_url ++ e)
            (stdHeaders cfg) (cfg.user, cfg.password) p)] else [])
          ++ [.http (builtRequest cfg m e p ps)],
         .ok (.jobj [("success", .jbool true)]), rest⟩ := rfl

/-- One-step reduction of `poznote_request` on a script whose next
response is a request failure. -/
theorem poznote_request_fail_eq (cfg : Config) (m e : String) (p : Option JVal)
    (ps : List (String × String)) (dbg : Bool) (rest : List ApiResp) :
    poznote_request cfg m e p ps dbg (.fail :: rest)
      = ⟨(if dbg then [.out (print_debug_curl m (cfg.base_url ++ e)
            (stdHeaders cfg) (cfg.user, cfg.password) p)] else [])
          ++ [.http (builtRequest cfg m e p ps), .out apiFailMsg],
         .error 13, rest⟩ := rfl

/-- One-step reduction of `poznote_request` on an exhausted script
(modelled as a network failure). -/
theorem poznote_request_nil_eq (cfg : Config) (m e : String) (p : Option JVal)
    (ps : List (String × String)) (dbg : Bool) :
    poznote_request cfg m e p ps dbg []
      = ⟨(if dbg then [.out (print_debug_curl m (cfg.base_url ++ e)
            (stdHeaders cfg) (cfg.user, cfg.password) p)] else [])
          ++ [.http (builtRequest cfg m e p ps), .out apiFailMsg],
         .error 13, []⟩ := rfl

/-! ## C3 — `get_config` failure and success behaviour -/

/-- C3: `get_config` terminates with exit code 12 exactly when the url,
the user or the password is missing or empty after resolution; when all
three are non-empty it succeeds and returns the url with its trailing
slashes stripped, the user id defaulting to "1", the workspace to
"Poznote", and advanced features resolved from the toggle — in
particular false when the toggle is absent. -/
theorem get_config_exit12_iff (env : Env) :
    (get_config env = Except.error 12 ↔
      (env.url = none ∨ env.url = some "" ∨ env.user = none ∨ env.user = some ""
        ∨ env.password = none ∨ env.password = some ""))
    ∧ (∀ u us pw, env.url = some u → env.user = some us → env.password = some pw →
        u ≠ "" → us ≠ "" → pw ≠ "" →
        get_config env = Except.ok
          { base_url := pyRstrip u '/'
            user := us
            password := pw
            user_id := env.user_id.getD "1"
            workspace := env.workspace.getD "Poznote"
            adv_feat := pyLower (env.adv_features.getD "false") == "true" }
        ∧ (env.adv_features = none →
            get_config env = Except.ok
              { base_url := pyRstrip u '/'
                user := us
                password := pw
                user_id := env.user_id.getD "1"
                workspace := env.workspace.getD "Poznote"
                adv_feat := false })) := by
  obtain ⟨u, us, pw, uid, ws, adv⟩ := env
  constructor
  · rcases u with _ | u <;> rcases us with _ | us <;> rcases pw with _ | pw <;>
      simp [get_config, pyTruthyStr] <;>
      by_cases hu : u = "" <;> try subst hu
    all_goals
      first
      | (by_cases hus : us = "" <;> try subst hus
         all_goals
           first
           | (by_cases hpw : pw = "" <;> try subst hpw
              all_goals simp_all)
           | simp_all)
      | simp_all
  · intro u us pw h1 h2 h3 hu hus hpw
    subst h1; subst h2; subst h3
    have : get_config ⟨some u, some us, some pw, uid, ws, adv⟩ = Except.ok
        { base_url := pyRstrip u '/', user := us, password := pw
          user_id := uid.getD "1", workspace := ws.getD "Poznote"
          adv_feat := pyLower (adv.getD "false") == "true" } := by
      simp [get_config, pyTruthyStr, hu, hus, hpw]
    refine ⟨this, fun ha => ?_⟩
    subst ha
    have h4 : (pyLower "false" == "true") = false := by decide
    simpa [h4] using this

/-- Concrete use of C3: a full environment loads to the expected
configuration (trailing slash stripped, defaults applied, advanced
features false when absent). -/
theorem get_config_exit12_iff_witness :
    get_config envEx = Except.ok cfgEx := by
  have h := ((get_config_exit12_iff envEx).2 "http://x/" "u" "p" rfl rfl rfl
    (by decide) (by decide) (by decide)).2 rfl
  rw [h]
  decide

/-! ## C5 — Update input guards -/

/-- C5: `update_note` with an interactive standard input prints the error
and exits 11 with no HTTP request; with piped input that is empty after
stripping it issues no request, prints nothing, and the process ends with
success status 0. -/
theorem update_note_input_guards (cfg : Config) (note_id : String) (dbg : Bool)
    (resps : List ApiResp) (raw : String) (he : pyStrip raw = "") :
    ((update_note cfg note_id .tty dbg resps).requests = []
      ∧ (update_note cfg note_id .tty dbg resps).exitCode = some 11)
    ∧ (update_note cfg note_id (.piped raw) dbg resps = ⟨[], none⟩
      ∧ (update_note cfg note_id (.piped raw) dbg resps).requests = []
      ∧ (update_note cfg note_id (.piped raw) dbg resps).finalExit = 0) := by
  have hp : update_note cfg note_id (.piped raw) dbg resps = ⟨[], none⟩ := by
    simp [update_note, he]
  exact ⟨⟨rfl, rfl⟩, hp, by rw [hp]; rfl, by rw [hp]; rfl⟩

/-- Concrete use of C5 at whitespace-only piped input and at a tty. -/
theorem update_note_input_guards_witness :
    pyStrip "  " = ""
    ∧ (update_note cfgAdv "7" .tty false []).exitCode = some 11
    ∧ (update_note cfgAdv "7" (.piped "  ") false []).finalExit = 0 :=
  ⟨by decide,
   (update_note_input_guards cfgAdv "7" false [] "  " (by decide)).1.2,
   (update_note_input_guards cfgAdv "7" false [] "  " (by decide)).2.2.2⟩

/-! ## C6 — Post with empty resolved content -/

/-- C6: a Post whose resolved content is empty — piped input that strips
to the empty string, or a clipboard read (with `-c`) that returns nothing
or the empty string — produces no events at all (hence no HTTP request)
and exits 0. -/
theorem post_empty_content_exit0 (cfg : Config) (tags : Option String)
    (sd su burn dbg : Bool) (stdin : Stdin) (clip : Option String)
    (now : Nat) (resps : List ApiResp) (raw : String)
    (hr : pyStrip raw = "") (hclip : clip = none ∨ clip = some "") :
    post_to_poznote cfg tags false sd su burn dbg (.piped raw) clip now resps
      = ⟨[], some 0⟩
    ∧ post_to_poznote cfg tags true sd su burn dbg stdin clip now resps
      = ⟨[], some 0⟩ := by
  constructor
  · simp [post_to_poznote, post_with_content, hr, pyTruthyStr]
  · rcases hclip with h | h <;>
      simp [post_to_poznote, post_with_content, h, pyTruthyStr]

/-- Concrete use of C6: empty piped input and an empty clipboard read both
end the run silently with exit 0. -/
theorem post_empty_content_exit0_witness :
    post_to_poznote cfgEx none false false false false false (.piped "") none 5 []
      = ⟨[], some 0⟩
    ∧ post_to_poznote cfgEx none true false false false false .tty none 5 []
      = ⟨[], some 0⟩ :=
  ⟨(post_empty_content_exit0 cfgEx none false false false false .tty none 5 [] ""
      (by decide) (Or.inl rfl)).1,
   (post_empty_content_exit0 cfgEx none false false false false .tty none 5 [] ""
      (by decide) (Or.inl rfl)).2⟩


/-! ## C7 — Empty notes list: message, no second call, success -/

/-- C7: when the first API call of List-latest or Search answers with an
empty `notes` list (or no `notes` field at all), the handler prints its
"no notes found" message, sends no second request (exactly the one
collection GET is on the wire), and the process ends with success
status 0. -/
theorem empty_notes_single_call_success (cfg : Config) (dbg : Bool) (q : String)
    (data : JVal) (rest : List ApiResp)
    (h : jgetD data "notes" (.jarr []) = .jarr []) :
    ((list_last_note cfg dbg (.ok data :: rest)).requests
        = [builtRequest cfg "GET" "/api/v1/notes" none [("workspace", cfg.workspace)]]
      ∧ (list_last_note cfg dbg (.ok data :: rest)).finalExit = 0
      ∧ Event.out ("No notes found in workspace: " ++ cfg.workspace)
          ∈ (list_last_note cfg dbg (.ok data :: rest)).events)
    ∧ ((search_notes cfg q dbg (.ok data :: rest)).requests
        = [builtRequest cfg "GET" "/api/v1/notes" none
            [("workspace", cfg.workspace), ("search", q)]]
      ∧ (search_notes cfg q dbg (.ok data :: rest)).finalExit = 0
      ∧ Event.out ("No notes found matching " ++ apos ++ q ++ apos
          ++ " in workspace: " ++ cfg.workspace)
          ∈ (search_notes cfg q dbg (.ok data :: rest)).events) := by
  constructor
  · unfold list_last_note
    rw [poznote_request_ok_eq]
    cases dbg <;>
      simp [h, pyTruthyJ, Run.requests, Run.finalExit, httpOf]
  · unfold search_notes
    rw [poznote_request_ok_eq]
    cases dbg <;>
      simp [h, pyTruthyJ, Run.requests, Run.finalExit, httpOf]

/-- Concrete use of C7: an empty collection answer yields success and a
single request for both handlers. -/
theorem empty_notes_single_call_success_witness :
    ((list_last_note cfgAdv false [.ok (.jobj [("notes", .jarr [])])]).finalExit = 0
      ∧ Event.out ("No notes found in workspace: " ++ cfgAdv.workspace)
          ∈ (list_last_note cfgAdv false [.ok (.jobj [("notes", .jarr [])])]).events)
    ∧ (search_notes cfgAdv "x" false [.ok (.jobj [("notes", .jarr [])])]).requests
        = [builtRequest cfgAdv "GET" "/api/v1/notes" none
            [("workspace", cfgAdv.workspace), ("search", "x")]] :=
  ⟨⟨(empty_notes_single_call_success cfgAdv false "x" (.jobj [("notes", .jarr [])])
      [] (by decide)).1.2.1,
    (empty_notes_single_call_success cfgAdv false "x" (.jobj [("notes", .jarr [])])
      [] (by decide)).1.2.2⟩,
   (empty_notes_single_call_success cfgAdv false "x" (.jobj [("notes", .jarr [])])
      [] (by decide)).2.1⟩

/-! ## C8 — Non-empty notes list: detail GET targets the first id -/

/-- C8: when the first API call of List-latest or Search answers with a
non-empty `notes` list, the handler sends exactly one further request — a
GET for the detail of the FIRST element's id — whatever the outcome of
that second call. -/
theorem nonempty_notes_first_id_detail_get (cfg : Config) (dbg : Bool)
    (q : String) (data n0 : JVal) (ns : List JVal) (rest : List ApiResp)
    (h : jgetD data "notes" (.jarr []) = .jarr (n0 :: ns)) :
    (list_last_note cfg dbg (.ok data :: rest)).requests
      = [builtRequest cfg "GET" "/api/v1/notes" none [("workspace", cfg.workspace)],
         builtRequest cfg "GET"
           ("/api/v1/notes/" ++ pyStr (jgetD n0 "id" .jnull)) none []]
    ∧ (search_notes cfg q dbg (.ok data :: rest)).requests
      = [builtRequest cfg "GET" "/api/v1/notes" none
           [("workspace", cfg.workspace), ("search", q)],
         builtRequest cfg "GET"
           ("/api/v1/notes/" ++ pyStr (jgetD n0 "id" .jnull)) none []] := by
  constructor
  · unfold list_last_note
    rw [poznote_request_ok_eq]
    cases rest with
    | nil =>
      cases dbg <;>
        simp [h, pyTruthyJ, pyIndex0, Run.requests, httpOf, poznote_request_nil_eq]
    | cons r rest2 =>
      cases r <;> cases dbg <;>
        simp [h, pyTruthyJ, pyIndex0, Run.requests, httpOf,
          poznote_request_ok_eq, poznote_request_okEmpty_eq, poznote_request_fail_eq]
  · unfold search_notes
    rw [poznote_request_ok_eq]
    cases rest with
    | nil =>
      cases dbg <;>
        simp [h, pyTruthyJ, pyIndex0, Run.requests, httpOf, poznote_request_nil_eq]
    | cons r rest2 =>
      cases r <;> cases dbg <;>
        simp [h, pyTruthyJ, pyIndex0, Run.requests, httpOf,
          poznote_request_ok_eq, poznote_request_okEmpty_eq, poznote_request_fail_eq]

/-- Concrete use of C8, the spec's example: `notes: [{id: 42}, {id: 7}]`
makes the detail GET target id 42, not 7. -/
theorem nonempty_notes_first_id_detail_get_witness :
    (list_last_note cfgAdv false
        [.ok (.jobj [("notes", .jarr [.jobj [("id", .jnum 42)],
                                      .jobj [("id", .jnum 7)]])]),
         .ok (.jobj [("note", .jobj [("id", .jnum 42)])])]).requests
      = [builtRequest cfgAdv "GET" "/api/v1/notes" none
           [("workspace", cfgAdv.workspace)],
         builtRequest cfgAdv "GET" "/api/v1/notes/42" none []] := by
  have h := (nonempty_notes_first_id_detail_get cfgAdv false "x"
    (.jobj [("notes", .jarr [.jobj [("id", .jnum 42)], .jobj [("id", .jnum 7)]])])
    (.jobj [("id", .jnum 42)]) [.jobj [("id", .jnum 7)]]
    [.ok (.jobj [("note", .jobj [("id", .jnum 42)])])] (by decide)).1
  rw [h]
  decide

/-- The projection `httpOf` commutes with a boolean choice of event lists. -/
theorem httpOf_ite (c : Bool) (a b : List Event) :
    httpOf (if c then a else b) = if c then httpOf a else httpOf b := by
  cases c <;> rfl

/-- The projection `Run.requests` commutes with a boolean choice of runs. -/
theorem run_requests_ite (c : Bool) (a b : Run) :
    (if c then a else b).requests = if c then a.requests else b.requests := by
  cases c <;> rfl

/-- The projection `Run.exitCode` commutes with a boolean choice of runs. -/
theorem run_exitCode_ite (c : Bool) (a b : Run) :
    (if c then a else b).exitCode = if c then a.exitCode else b.exitCode := by
  cases c <;> rfl

/-! ## C1 — Tags are comma-split but neither trimmed nor filtered -/

/-- C1 counterexample: posting content "hello world" with tags "a, b"
sends a POST whose payload `tags` field is `["a", " b"]` — the plain
comma split, second element untrimmed — and not the trimmed,
empty-filtered sequence the claim describes.  The claim is false at this
input. -/
theorem post_tags_not_trimmed_cex :
    (post_to_poznote cfgEx (some "a, b") false false false false false
        (.piped "hello world") none 5
        [.ok (.jobj [("note", .jobj [("id", .jnum 99)])])]).requests.head?
      = some (builtRequest cfgEx "POST" "/api/v1/notes"
          (some (post_payload 5 "hello world" "Poznote" (some "a, b"))) [])
    ∧ jgetD (post_payload 5 "hello world" "Poznote" (some "a, b")) "tags" .jnull
      = .jarr [.jstr "a", .jstr " b"]
    ∧ jgetD (post_payload 5 "hello world" "Poznote" (some "a, b")) "tags" .jnull
      ≠ .jarr ((specTagsSplit "a, b").map .jstr) :=
  ⟨by decide, by decide, by decide⟩

/-- C1 (amended): with non-empty piped content and a non-empty tags
string, the first outbound request is the POST whose payload `tags` field
is the PLAIN comma split of the tags string — elements in order, neither
trimmed nor filtered; with tags "a,b" this is indeed `["a", "b"]`. -/
theorem post_tags_plain_split (cfg : Config) (t raw : String)
    (sd su burn dbg : Bool) (clip : Option String) (now : Nat)
    (resps : List ApiResp) (ht : t ≠ "") (hr : pyStrip raw ≠ "") :
    (post_to_poznote cfg (some t) false sd su burn dbg (.piped raw) clip now
        resps).requests.head?
      = some (builtRequest cfg "POST" "/api/v1/notes"
          (some (post_payload now (pyStrip raw) cfg.workspace (some t))) [])
    ∧ jgetD (post_payload now (pyStrip raw) cfg.workspace (some t)) "tags" .jnull
      = .jarr ((pySplit t ',').map .jstr) := by
  constructor
  · have hin : pyTruthyStr (some (pyStrip raw)) = true := by
      simp [pyTruthyStr, hr]
    unfold post_to_poznote post_with_content
    simp only [Bool.false_eq_true, if_false, hin, Bool.not_true, Option.getD_some]
    cases hres : (poznote_request_send cfg "POST" "/api/v1/notes"
        (some (post_payload now (pyStrip raw) cfg.workspace (some t))) [] resps).res with
    | error c =>
      simp only [poznote_request_res, hres, Run.requests]
      rw [poznote_request_httpOf]
      rfl
    | ok data =>
      simp only [poznote_request_res, hres]
      cases hb : (burn && pyTruthyJ (jgetD (jgetD data "note" (.jobj []))
          "id" .jnull)) <;>
        simp [hb, Run.requests, run_requests_ite, httpOf_append,
          poznote_request_httpOf]
  · have e1 : ("tags" == "heading") = false := by decide
    have e2 : ("tags" == "content") = false := by decide
    have e3 : ("tags" == "workspace") = false := by decide
    have e4 : ("tags" == "type") = false := by decide
    simp [post_payload, jgetD, pyTruthyStr, ht, List.lookup, e1, e2, e3, e4]

/-- Concrete use of amended C1, the spec's example: tags "a,b" with
content "hello world" sends `tags = ["a", "b"]`. -/
theorem post_tags_plain_split_witness :
    (post_to_poznote cfgEx (some "a,b") false false false false false
        (.piped "hello world") none 5
        [.ok (.jobj [("note", .jobj [("id", .jnum 99)])])]).requests.head?
      = some (builtRequest cfgEx "POST" "/api/v1/notes"
          (some (post_payload 5 "hello world" "Poznote" (some "a,b"))) [])
    ∧ jgetD (post_payload 5 "hello world" "Poznote" (some "a,b")) "tags" .jnull
      = .jarr [.jstr "a", .jstr "b"] := by
  have h := post_tags_plain_split cfgEx "a,b" "hello world" false false false false
    none 5 [.ok (.jobj [("note", .jobj [("id", .jnum 99)])])]
    (by decide) (by decide)
  refine ⟨?_, by decide⟩
  rw [h.1]
  decide

/-! ## C2 — The advanced-features gate -/

/-- C2 counterexample: `-s ""` sets a gated flag, the configuration has
advanced features disabled, yet the run does not exit 12 and does issue
an HTTP request — the empty value is falsy, so the guard and the dispatch
skip it and the default Post action POSTs the piped content. -/
theorem gated_empty_value_no_exit12_cex :
    (mainRun envEx
        { argsNone with search := some "" } (.piped "hi") none 5 []).exitCode
      ≠ some 12
    ∧ (mainRun envEx
        { argsNone with search := some "" } (.piped "hi") none 5 []).requests
      ≠ [] :=
  ⟨by decide, by decide⟩

/-- C2 (amended): an invocation in which some gated flag is set to a
truthy value — `-L`, or a non-empty string for `-s`/`-D`/`-U` — while the
loaded configuration has advanced features disabled prints the gate error
and exits 12 without issuing any HTTP request. -/
theorem gated_truthy_flag_exit12 (env : Env) (args : Args) (stdin : Stdin)
    (clip : Option String) (now : Nat) (resps : List ApiResp) (cfg : Config)
    (hc : get_config env = .ok cfg) (ha : cfg.adv_feat = false)
    (hany : args.last = true ∨ pyTruthyStr args.search = true
      ∨ pyTruthyStr args.delete = true ∨ pyTruthyStr args.update = true) :
    (mainRun env args stdin clip now resps).requests = []
    ∧ (mainRun env args stdin clip now resps).exitCode = some 12 := by
  have hcond : (((args.last = true ∨ pyTruthyStr args.search = true)
      ∨ pyTruthyStr args.delete = true) ∨ pyTruthyStr args.update = true)
      ∧ cfg.adv_feat = false := by
    refine ⟨?_, ha⟩
    rcases hany with h | h | h | h
    · exact Or.inl (Or.inl (Or.inl h))
    · exact Or.inl (Or.inl (Or.inr h))
    · exact Or.inl (Or.inr h)
    · exact Or.inr h
  unfold mainRun
  rw [hc]
  constructor <;> simp [hcond, Run.requests, httpOf]

/-- Concrete use of amended C2: `-L` with advanced features disabled
exits 12 without any request. -/
theorem gated_truthy_flag_exit12_witness :
    (mainRun envEx { argsNone with last := true } .tty none 5 []).requests = []
    ∧ (mainRun envEx { argsNone with last := true } .tty none 5 []).exitCode
      = some 12 :=
  gated_truthy_flag_exit12 envEx { argsNone with last := true } .tty none 5 []
    cfgEx (by decide) (by decide) (Or.inl (by decide))

/-! ## C10 — Empty gated values fall through to Post -/

/-- C10: when every gated flag is absent or carries the empty string
(`-L` unset, `-s`/`-D`/`-U` absent or given `""`), both the gate and the
dispatch treat them as unset — string truthiness, not presence — so the
run does not exit 12 even when advanced features are disabled: it IS the
default Post action on the loaded configuration. -/
theorem empty_gated_values_default_to_post (env : Env) (args : Args)
    (stdin : Stdin) (clip : Option String) (now : Nat) (resps : List ApiResp)
    (cfg : Config) (hc : get_config env = .ok cfg)
    (hl : args.last = false)
    (hs : args.search = none ∨ args.search = some "")
    (hd : args.delete = none ∨ args.delete = some "")
    (hu : args.update = none ∨ args.update = some "") :
    mainRun env args stdin clip now resps
      = post_to_poznote cfg args.tags args.clipboard args.d args.u args.burn
          args.debug stdin clip now resps := by
  have hs' : pyTruthyStr args.search = false := by
    rcases hs with h | h <;> simp [h, pyTruthyStr]
  have hd' : pyTruthyStr args.delete = false := by
    rcases hd with h | h <;> simp [h, pyTruthyStr]
  have hu' : pyTruthyStr args.update = false := by
    rcases hu with h | h <;> simp [h, pyTruthyStr]
  unfold mainRun
  rw [hc]
  simp [hl, hs', hd', hu']

/-- Concrete use of C10: `-s ""`, `-D ""`, `-U ""` together, with
advanced features disabled, run the default Post action. -/
theorem empty_gated_values_default_to_post_witness :
    mainRun envEx
        { argsNone with search := some "", delete := some "", update := some "" }
        (.piped "hi") none 5 []
      = post_to_poznote cfgEx none false false false false false
          (.piped "hi") none 5 [] :=
  empty_gated_values_default_to_post envEx
    { argsNone with search := some "", delete := some "", update := some "" }
    (.piped "hi") none 5 [] cfgEx (by decide) (by decide)
    (Or.inr (by decide)) (Or.inr (by decide)) (Or.inr (by decide))

/-! ## C4 — Burn mode: one DELETE, after the confirmation, exit 13 on failure -/

/-- C4 counterexample: Burn mode with a successful Post whose returned
note id is `0` issues NO delete at all — `if burn and note_id:` tests
Python truthiness of the id, and `0` is falsy — refuting the claimed
"exactly one DELETE request for id N" for every returned id N. -/
theorem burn_falsy_id_no_delete_cex :
    ((post_to_poznote cfgEx none false false false true false (.piped "hi")
        none 5 [.ok (.jobj [("note", .jobj [("id", .jnum 0)])]),
          .okEmpty]).events.filter isDeleteHttp).length ≠ 1 := by decide

/-- C4 (amended): in Burn mode, after a successful Post returning a
TRUTHY note id (non-zero number, non-empty string), the run contains no
DELETE before the confirmation read, contains exactly one DELETE overall
— for that id — and a failing DELETE makes the process exit 13 rather
than being swallowed. -/
theorem burn_truthy_id_single_delete (cfg : Config) (tags : Option String)
    (sd su dbg : Bool) (clip : Option String) (now : Nat) (raw : String)
    (data idv : JVal) (rest : List ApiResp)
    (hr : pyStrip raw ≠ "")
    (hidv : jgetD (jgetD data "note" (.jobj [])) "id" .jnull = idv)
    (htr : pyTruthyJ idv = true) :
    ((post_to_poznote cfg tags false sd su true dbg (.piped raw) clip now
        (.ok data :: rest)).events.takeWhile (fun e => !isConfirm e)).filter
        isDeleteHttp = []
    ∧ (post_to_poznote cfg tags false sd su true dbg (.piped raw) clip now
        (.ok data :: rest)).events.filter isDeleteHttp
      = [.http (builtRequest cfg "DELETE" ("/api/v1/notes/" ++ pyStr idv)
          none [])]
    ∧ (rest.head? = some .fail →
        (post_to_poznote cfg tags false sd su true dbg (.piped raw) clip now
          (.ok data :: rest)).exitCode = some 13) := by
  have hin : pyTruthyStr (some (pyStrip raw)) = true := by
    simp [pyTruthyStr, hr]
  have hPD : (("POST" : String) == "DELETE") = false := by decide
  have hDD : (("DELETE" : String) == "DELETE") = true := by decide
  refine ⟨?_, ?_, ?_⟩
  · unfold post_to_poznote post_with_content
    cases sd <;> cases su <;> cases dbg <;>
      simp [hin, hidv, htr, poznote_request, poznote_request_send,
        builtRequest, stdHeaders, isConfirm, isDeleteHttp, hPD]
  · unfold post_to_poznote post_with_content
    cases rest with
    | nil =>
      cases sd <;> cases su <;> cases dbg <;>
        simp [hin, hidv, htr, poznote_request, poznote_request_send,
          delete_note, builtRequest, stdHeaders, isConfirm, isDeleteHttp,
          hPD, hDD]
    | cons rh rest2 =>
      cases rh <;> cases sd <;> cases su <;> cases dbg <;>
        simp [hin, hidv, htr, poznote_request, poznote_request_send,
          delete_note, builtRequest, stdHeaders, isConfirm, isDeleteHttp,
          hPD, hDD]
  · intro hfail
    cases rest with
    | nil => simp at hfail
    | cons rh rest2 =>
      simp at hfail
      subst hfail
      unfold post_to_poznote post_with_content
      simp [hin, hidv, htr, poznote_request, poznote_request_send, delete_note]

/-- Concrete use of amended C4: Burn with returned id 99 and a failing
DELETE — one DELETE for id 99, and exit 13. -/
theorem burn_truthy_id_single_delete_witness :
    (post_to_poznote cfgEx none false false false true false (.piped "hi")
        none 5 [.ok (.jobj [("note", .jobj [("id", .jnum 99)])]),
          .fail]).events.filter isDeleteHttp
      = [.http (builtRequest cfgEx "DELETE"
          ("/api/v1/notes/" ++ pyStr (.jnum 99)) none [])]
    ∧ (post_to_poznote cfgEx none false false false true false (.piped "hi")
        none 5 [.ok (.jobj [("note", .jobj [("id", .jnum 99)])]),
          .fail]).exitCode = some 13 :=
  ⟨(burn_truthy_id_single_delete cfgEx none false false false none 5 "hi"
      (.jobj [("note", .jobj [("id", .jnum 99)])]) (.jnum 99) [.fail]
      (by decide) (by decide) (by decide)).2.1,
   (burn_truthy_id_single_delete cfgEx none false false false none 5 "hi"
      (.jobj [("note", .jobj [("id", .jnum 99)])]) (.jnum 99) [.fail]
      (by decide) (by decide) (by decide)).2.2 (by decide)⟩

/-! ## C9 — The debug flag never alters the outgoing requests -/

/-- The requests and exit status of `list_last_note` do not depend on the
debug flag. -/
theorem list_last_note_dbg (cfg : Config) (b1 b2 : Bool) (resps : List ApiResp) :
    (list_last_note cfg b1 resps).requests = (list_last_note cfg b2 resps).requests
    ∧ (list_last_note cfg b1 resps).exitCode = (list_last_note cfg b2 resps).exitCode := by
  unfold list_last_note
  cases resps with
  | nil =>
    simp [poznote_request_nil_eq, Run.requests, httpOf_append, httpOf_ite, httpOf_cons_http, httpOf_cons_out, httpOf_cons_confirm, httpOf_nil, ite_self]
  | cons r rest =>
    cases r with
    | ok data =>
      simp only [poznote_request_ok_eq]
      cases hn : pyTruthyJ (jgetD data "notes" (.jarr [])) with
      | false =>
        simp [hn, Run.requests, httpOf_append, httpOf_ite, httpOf_cons_http, httpOf_cons_out, httpOf_cons_confirm, httpOf_nil, ite_self]
      | true =>
        cases rest with
        | nil =>
          simp [hn, poznote_request_nil_eq, Run.requests, httpOf_append,
            httpOf_ite, httpOf_cons_http, httpOf_cons_out, httpOf_cons_confirm, httpOf_nil, ite_self]
        | cons r2 rest2 =>
          cases r2 <;>
            simp [hn, poznote_request_ok_eq, poznote_request_okEmpty_eq,
              poznote_request_fail_eq, Run.requests, httpOf_append,
              httpOf_ite, httpOf_cons_http, httpOf_cons_out, httpOf_cons_confirm, httpOf_nil, ite_self]
    | okEmpty =>
      have hns : (("notes" : String) == "success") = false := by decide
      simp [poznote_request_okEmpty_eq, Run.requests, httpOf_append,
        httpOf_ite, httpOf_cons_http, httpOf_cons_out, httpOf_cons_confirm,
        httpOf_nil, ite_self, jgetD, pyTruthyJ, List.lookup, hns]
    | fail =>
      simp [poznote_request_fail_eq, Run.requests, httpOf_append,
        httpOf_ite, httpOf_cons_http, httpOf_cons_out, httpOf_cons_confirm, httpOf_nil, ite_self]

/-- The requests and exit status of `search_notes` do not depend on the
debug flag. -/
theorem search_notes_dbg (cfg : Config) (q : String) (b1 b2 : Bool)
    (resps : List ApiResp) :
    (search_notes cfg q b1 resps).requests = (search_notes cfg q b2 resps).requests
    ∧ (search_notes cfg q b1 resps).exitCode = (search_notes cfg q b2 resps).exitCode := by
  unfold search_notes
  cases resps with
  | nil =>
    simp [poznote_request_nil_eq, Run.requests, httpOf_append, httpOf_ite, httpOf_cons_http, httpOf_cons_out, httpOf_cons_confirm, httpOf_nil, ite_self]
  | cons r rest =>
    cases r with
    | ok data =>
      simp only [poznote_request_ok_eq]
      cases hn : pyTruthyJ (jgetD data "notes" (.jarr [])) with
      | false =>
        simp [hn, Run.requests, httpOf_append, httpOf_ite, httpOf_cons_http, httpOf_cons_out, httpOf_cons_confirm, httpOf_nil, ite_self]
      | true =>
        cases rest with
        | nil =>
          simp [hn, poznote_request_nil_eq, Run.requests, httpOf_append,
            httpOf_ite, httpOf_cons_http, httpOf_cons_out, httpOf_cons_confirm, httpOf_nil, ite_self]
        | cons r2 rest2 =>
          cases r2 <;>
            simp [hn, poznote_request_ok_eq, poznote_request_okEmpty_eq,
              poznote_request_fail_eq, Run.requests, httpOf_append,
              httpOf_ite, httpOf_cons_http, httpOf_cons_out, httpOf_cons_confirm, httpOf_nil, ite_self]
    | okEmpty =>
      have hns : (("notes" : String) == "success") = false := by decide
      simp [poznote_request_okEmpty_eq, Run.requests, httpOf_append,
        httpOf_ite, httpOf_cons_http, httpOf_cons_out, httpOf_cons_confirm,
        httpOf_nil, ite_self, jgetD, pyTruthyJ, List.lookup, hns]
    | fail =>
      simp [poznote_request_fail_eq, Run.requests, httpOf_append,
        httpOf_ite, httpOf_cons_http, httpOf_cons_out, httpOf_cons_confirm, httpOf_nil, ite_self]

/-- The requests and exit status of `delete_note` do not depend on the
debug flag. -/
theorem delete_note_dbg (cfg : Config) (note_id : String) (sil b1 b2 : Bool)
    (resps : List ApiResp) :
    (delete_note cfg note_id sil b1 resps).requests
      = (delete_note cfg note_id sil b2 resps).requests
    ∧ (delete_note cfg note_id sil b1 resps).exitCode
      = (delete_note cfg note_id sil b2 resps).exitCode := by
  unfold delete_note
  cases resps with
  | nil =>
    simp [poznote_request_nil_eq, Run.requests, httpOf_append, httpOf_ite, httpOf_cons_http, httpOf_cons_out, httpOf_cons_confirm, httpOf_nil, ite_self]
  | cons r rest =>
    cases r <;>
      simp [poznote_request_ok_eq, poznote_request_okEmpty_eq,
        poznote_request_fail_eq, Run.requests, httpOf_append, httpOf_ite,
        httpOf_cons_http, httpOf_cons_out, httpOf_cons_confirm, httpOf_nil, ite_self]

/-- The requests and exit status of `update_note` do not depend on the
debug flag. -/
theorem update_note_dbg (cfg : Config) (note_id : String) (stdin : Stdin)
    (b1 b2 : Bool) (resps : List ApiResp) :
    (update_note cfg note_id stdin b1 resps).requests
      = (update_note cfg note_id stdin b2 resps).requests
    ∧ (update_note cfg note_id stdin b1 resps).exitCode
      = (update_note cfg note_id stdin b2 resps).exitCode := by
  unfold update_note
  cases stdin with
  | tty => exact ⟨rfl, rfl⟩
  | piped raw =>
    cases hs : (pyStrip raw == "") with
    | true => simp [hs]
    | false =>
      cases resps with
      | nil =>
        simp [hs, poznote_request_nil_eq, Run.requests, httpOf_append,
          httpOf_ite, httpOf_cons_http, httpOf_cons_out, httpOf_cons_confirm, httpOf_nil, ite_self]
      | cons r rest =>
        cases r <;>
          simp [hs, poznote_request_ok_eq, poznote_request_okEmpty_eq,
            poznote_request_fail_eq, Run.requests, httpOf_append,
            httpOf_ite, httpOf_cons_http, httpOf_cons_out, httpOf_cons_confirm, httpOf_nil, ite_self]

/-- The requests and exit status of `post_with_content` do not depend on
the debug flag. -/
theorem post_with_content_dbg (cfg : Config) (tags : Option String)
    (sd su burn b1 b2 : Bool) (inp : Option String) (now : Nat)
    (resps : List ApiResp) :
    (post_with_content cfg tags sd su burn b1 inp now resps).requests
      = (post_with_content cfg tags sd su burn b2 inp now resps).requests
    ∧ (post_with_content cfg tags sd su burn b1 inp now resps).exitCode
      = (post_with_content cfg tags sd su burn b2 inp now resps).exitCode := by
  unfold post_with_content
  cases hc : pyTruthyStr inp with
  | false => simp [hc]
  | true =>
    cases resps with
    | nil =>
      simp [hc, poznote_request_nil_eq, Run.requests, httpOf_append,
        httpOf_ite, httpOf_cons_http, httpOf_cons_out, httpOf_cons_confirm, httpOf_nil, ite_self]
    | cons r rest =>
      cases r with
      | ok data =>
        simp only [hc, Bool.not_true, Bool.false_eq_true, if_false,
          poznote_request_ok_eq]
        cases hb : (burn && pyTruthyJ (jgetD (jgetD data "note" (.jobj []))
            "id" .jnull)) with
        | false =>
          simp [hb, Run.requests, httpOf_append, httpOf_ite, httpOf_cons_http, httpOf_cons_out, httpOf_cons_confirm, httpOf_nil, ite_self]
        | true =>
          cases rest with
          | nil =>
            simp [hb, delete_note, poznote_request_nil_eq, Run.requests,
              httpOf_append, httpOf_ite, httpOf_cons_http, httpOf_cons_out, httpOf_cons_confirm, httpOf_nil, ite_self]
          | cons r2 rest2 =>
            cases r2 <;>
              simp [hb, delete_note, poznote_request_ok_eq,
                poznote_request_okEmpty_eq, poznote_request_fail_eq,
                Run.requests, httpOf_append, httpOf_ite, httpOf_cons_http, httpOf_cons_out, httpOf_cons_confirm, httpOf_nil, ite_self]
      | okEmpty =>
        have hnt : (("note" : String) == "success") = false := by decide
        simp [hc, poznote_request_okEmpty_eq, Run.requests, httpOf_append,
          httpOf_ite, httpOf_cons_http, httpOf_cons_out, httpOf_cons_confirm,
          httpOf_nil, ite_self, jgetD, pyTruthyJ, List.lookup, hnt]
      | fail =>
        simp [hc, poznote_request_fail_eq, Run.requests, httpOf_append,
          httpOf_ite, httpOf_cons_http, httpOf_cons_out, httpOf_cons_confirm, httpOf_nil, ite_self]

/-- The requests and exit status of `post_to_poznote` do not depend on
the debug flag. -/
theorem post_to_poznote_dbg (cfg : Config) (tags : Option String)
    (fc sd su burn b1 b2 : Bool) (stdin : Stdin) (clip : Option String)
    (now : Nat) (resps : List ApiResp) :
    (post_to_poznote cfg tags fc sd su burn b1 stdin clip now resps).requests
      = (post_to_poznote cfg tags fc sd su burn b2 stdin clip now resps).requests
    ∧ (post_to_poznote cfg tags fc sd su burn b1 stdin clip now resps).exitCode
      = (post_to_poznote cfg tags fc sd su burn b2 stdin clip now resps).exitCode := by
  unfold post_to_poznote
  cases fc with
  | true => exact post_with_content_dbg cfg tags sd su burn b1 b2 clip now resps
  | false =>
    cases stdin with
    | tty => exact ⟨rfl, rfl⟩
    | piped raw =>
      exact post_with_content_dbg cfg tags sd su burn b1 b2
        (some (pyStrip raw)) now resps

/-- C9: two invocations identical except for the debug flag send exactly
the same HTTP requests — same method, url, headers (including `X-User-ID`
and `Content-Type`), basic-auth credentials, JSON body and query
parameters, in the same order — and exit with the same status; debug mode
only prints the echoed curl command before sending. -/
theorem debug_flag_request_invariance (env : Env) (args : Args)
    (stdin : Stdin) (clip : Option String) (now : Nat) (resps : List ApiResp) :
    (mainRun env { args with debug := true } stdin clip now resps).requests
      = (mainRun env { args with debug := false } stdin clip now resps).requests
    ∧ (mainRun env { args with debug := true } stdin clip now resps).exitCode
      = (mainRun env { args with debug := false } stdin clip now resps).exitCode := by
  obtain ⟨d, bn, u, tg, cb, dbg, del, upd, lst, srch⟩ := args
  unfold mainRun
  cases hcfg : get_config env with
  | error c => exact ⟨rfl, rfl⟩
  | ok cfg =>
    simp only []
    split_ifs with h1 h2 h3 h4 h5
    · exact ⟨rfl, rfl⟩
    · exact list_last_note_dbg cfg true false resps
    · exact search_notes_dbg cfg (srch.getD "") true false resps
    · exact delete_note_dbg cfg (del.getD "") false true false resps
    · exact update_note_dbg cfg (upd.getD "") stdin true false resps
    · exact post_to_poznote_dbg cfg tg cb d u bn true false stdin clip now resps
